import Mathlib

/-!
Verification of the queue-driven DocuSign-to-Salesforce integration worker
(`worker.py`).  The worker's job payloads and API responses are JSON values,
embedded here as `JValue`; Python dictionary access, truthiness, and string
conversion are embedded explicitly.  Exceptions are embedded as `Except Unit`;
external collaborators (DocuSign client construction, Salesforce client
construction, the two HTTP GETs, the SOQL query, the attachment create) are
embedded as an oracle `World`, and every external operation performed is
recorded in a trace of `Call`s.
-/

namespace Worker

/-- A JSON value, as produced by `json.loads` / `response.json()`. -/
inductive JValue where
  | null
  | bool (b : Bool)
  | int (n : Int)
  | str (s : String)
  | arr (items : List JValue)
  | obj (fields : List (String × JValue))

/-- First-match lookup in a JSON object's field list (Python dict keys are
unique, so first-match agrees with dict lookup). -/
def jlookup : List (String × JValue) → String → Option JValue
  | [], _ => none
  | (k, v) :: rest, key => if k = key then some v else jlookup rest key

/-- Python `d.get(k)`: returns the value or `None` when `d` is a dict,
raises `AttributeError` on any other value. -/
def dictGet : JValue → String → Except Unit (Option JValue)
  | .obj kvs, k => .ok (jlookup kvs k)
  | _, _ => .error ()

/-- Python `d[k]` with a string key: returns the value when `d` is a dict
containing `k`, raises `KeyError` when the key is missing, and raises
`TypeError` on non-dict values. -/
def dictIndex : JValue → String → Except Unit JValue
  | .obj kvs, k =>
    match jlookup kvs k with
    | some v => .ok v
    | none => .error ()
  | _, _ => .error ()

/-- Python truthiness of a JSON value. -/
def truthy : JValue → Bool
  | .null => false
  | .bool b => b
  | .int n => n != 0
  | .str s => s != ""
  | .arr xs => !xs.isEmpty
  | .obj kvs => !kvs.isEmpty

/-- Python truthiness of a value that may be `None` (`Option JValue`). -/
def optTruthy : Option JValue → Bool
  | none => false
  | some v => truthy v

/-- Python `v == "s"` where `v` is a possibly-`None` JSON value and `s` a
string literal: true exactly when `v` is an equal string. -/
def isStrEq (v : Option JValue) (s : String) : Bool :=
  match v with
  | some (.str t) => t == s
  | _ => false

mutual

/-- Python `repr` of a JSON value (string escaping elided: the worker only
ever formats plain contract-number strings). -/
def pyRepr : JValue → String
  | .null => "None"
  | .bool true => "True"
  | .bool false => "False"
  | .int n => toString n
  | .str s => "\x27" ++ s ++ "\x27"
  | .arr xs => "[" ++ String.intercalate ", " (pyReprList xs) ++ "]"
  | .obj kvs => "\x7b" ++ String.intercalate ", " (pyReprObj kvs) ++ "\x7d"

/-- `repr` of each element of a JSON array. -/
def pyReprList : List JValue → List String
  | [] => []
  | x :: xs => pyRepr x :: pyReprList xs

/-- `repr` of each key/value pair of a JSON object. -/
def pyReprObj : List (String × JValue) → List String
  | [] => []
  | (k, v) :: rest => ("\x27" ++ k ++ "\x27: " ++ pyRepr v) :: pyReprObj rest

end

/-- Python `str` of a JSON value, as used by f-string interpolation. -/
def pyStr : JValue → String
  | .str s => s
  | v => pyRepr v

/-- The base64 alphabet (RFC 4648). -/
def b64Alphabet : String :=
  "ABCDEFGHIJKLMNOPQRSTUVWXYZabcdefghijklmnopqrstuvwxyz0123456789+/"

/-- The base64 digit for a 6-bit value. -/
def b64Char (n : Nat) : Char :=
  b64Alphabet.toList.getD n (Char.ofNat 65)

/-- `base64.b64encode(bytes).decode("utf-8")`: standard base64 with padding
over a byte sequence (each byte a `Nat` below 256). -/
def b64encode : List Nat → String
  | a :: b :: c :: rest =>
    String.mk [b64Char (a / 4), b64Char (a % 4 * 16 + b / 16),
               b64Char (b % 16 * 4 + c / 64), b64Char (c % 64)] ++ b64encode rest
  | [a, b] =>
    String.mk [b64Char (a / 4), b64Char (a % 4 * 16 + b / 16),
               b64Char (b % 16 * 4), Char.ofNat 61]
  | [a] =>
    String.mk [b64Char (a / 4), b64Char (a % 4 * 16),
               Char.ofNat 61, Char.ofNat 61]
  | [] => ""

/-- The SOQL query built at worker.py line 114:
`f"SELECT Id FROM Contract WHERE ContractNumber = \x27{contract_number}\x27"`. -/
def soqlFor (contract_number : JValue) : String :=
  "SELECT Id FROM Contract WHERE ContractNumber = \x27" ++ pyStr contract_number ++ "\x27"

/-- The attachment display name built at worker.py line 134:
`f"Signed Contract - \x7bcontract_number\x7d.pdf"`. -/
def attachmentName (contract_number : JValue) : String :=
  "Signed Contract - " ++ pyStr contract_number ++ ".pdf"

/-- The attachment record submitted to `sf_client.Attachment.create`
(worker.py lines 132-137). -/
structure AttachmentPayload where
  ParentId : JValue
  Name : String
  Body : String
  ContentType : String

/-- An external operation performed by the worker, in order. -/
inductive Call where
  | getDocusignApiClient
  | getSalesforceClient
  | httpGetCustomFields (envelopeId : JValue)
  | sfQuery (soql : String)
  | httpGetDocumentCombined (envelopeId : JValue)
  | attachmentCreate (payload : AttachmentPayload)

/-- Result of `sf_client.query`: `simple_salesforce` always returns a dict
with `totalSize` and `records`; each record is an arbitrary JSON value. -/
structure SfQueryResult where
  totalSize : Int
  records : List JValue

/-- Oracle for the external collaborators: whether each client construction
succeeds, and the outcome of each network operation (`Except.error ()` is a
raised exception: network failure, non-2xx status via `raise_for_status`, or
an API rejection). -/
structure World where
  docusignClientOk : Bool
  salesforceClientOk : Bool
  customFieldsResponse : Except Unit JValue
  queryResponse : String → Except Unit SfQueryResult
  documentResponse : Except Unit (List Nat)
  attachmentCreateOk : Bool

/-- The scan of worker.py lines 101-105: iterate the `textCustomFields` list,
stopping at the first field whose `name` equals `"contractNumber"` and taking
its `value` (`none` = the field has no `value` key, i.e. Python `None`).
`Except.error ()` is a raised exception (a list element is not a dict);
`.ok none` means the loop finished without a match. -/
def findContractNumber : List JValue → Except Unit (Option (Option JValue))
  | [] => .ok none
  | f :: rest =>
    match dictGet f "name" with
    | .error _ => .error ()
    | .ok nm =>
      if isStrEq nm "contractNumber" then
        match dictGet f "value" with
        | .error _ => .error ()
        | .ok v => .ok (some v)
      else findContractNumber rest

/-- worker.py lines 100-105: the value of the `contract_number` variable
after the extraction block (`none` = Python `None`), or a raised exception.
A truthy non-list `textCustomFields` raises inside the `for` loop (its
elements are not dicts), a falsy one skips the loop. -/
def extractContractNumber (custom_fields_data : JValue) : Except Unit (Option JValue) :=
  match dictGet custom_fields_data "textCustomFields" with
  | .error _ => .error ()
  | .ok tcf =>
    if optTruthy tcf then
      match tcf with
      | some (.arr fields) =>
        match findContractNumber fields with
        | .error _ => .error ()
        | .ok none => .ok none
        | .ok (some v) => .ok v
      | _ => .error ()
    else .ok none

/-- The `try` block of `process_webhook_job` (worker.py lines 86-144): runs
the pipeline for a completion-event payload, returns the boolean outcome and
the trace of external operations performed.  Every exception raised inside is
caught by the `except` at line 142 and becomes `False`. -/
def processCompletedJob (w : World) (webhook_data : JValue) : Bool × List Call :=
  match dictIndex webhook_data "data" with
  | .error _ => (false, [])
  | .ok d =>
    match dictIndex d "envelopeId" with
    | .error _ => (false, [])
    | .ok envelope_id =>
      if !w.docusignClientOk then (false, [.getDocusignApiClient])
      else if !w.salesforceClientOk then
        (false, [.getDocusignApiClient, .getSalesforceClient])
      else
        let tr0 : List Call :=
          [.getDocusignApiClient, .getSalesforceClient, .httpGetCustomFields envelope_id]
        match w.customFieldsResponse with
        | .error _ => (false, tr0)
        | .ok custom_fields_data =>
          match extractContractNumber custom_fields_data with
          | .error _ => (false, tr0)
          | .ok none => (false, tr0)
          | .ok (some contract_number) =>
            if !truthy contract_number then (false, tr0)
            else
              let soql := soqlFor contract_number
              let tr1 := tr0 ++ [Call.sfQuery soql]
              match w.queryResponse soql with
              | .error _ => (false, tr1)
              | .ok query_result =>
                if query_result.totalSize != 1 then (false, tr1)
                else
                  match query_result.records.head? with
                  | none => (false, tr1)
                  | some rec0 =>
                    match dictIndex rec0 "Id" with
                    | .error _ => (false, tr1)
                    | .ok salesforce_contract_id =>
                      let tr2 := tr1 ++ [Call.httpGetDocumentCombined envelope_id]
                      match w.documentResponse with
                      | .error _ => (false, tr2)
                      | .ok doc_content_bytes =>
                        let payload : AttachmentPayload :=
                          { ParentId := salesforce_contract_id
                            Name := attachmentName contract_number
                            Body := b64encode doc_content_bytes
                            ContentType := "application/pdf" }
                        let tr3 := tr2 ++ [Call.attachmentCreate payload]
                        if w.attachmentCreateOk then (true, tr3) else (false, tr3)

/-- `process_webhook_job` (worker.py lines 80-144).  The event check at line
82 (`webhook_data.get("event")`) runs BEFORE the `try` block, so on a
non-dict payload the `AttributeError` it raises escapes the function:
`Except.error ()`.  Otherwise the result is `.ok` of the boolean outcome and
the trace of external operations. -/
def process_webhook_job (w : World) (webhook_data : JValue) :
    Except Unit (Bool × List Call) :=
  match dictGet webhook_data "event" with
  | .error e => .error e
  | .ok ev =>
    if !isStrEq ev "envelope-completed" then .ok (true, [])
    else .ok (processCompletedJob w webhook_data)

/-- An acknowledgment action issued to the broker channel. -/
inductive AckAction where
  | basic_ack
  | basic_nack_norequeue

/-- The per-message consumer callback (worker.py lines 155-166), taking the
outcome of `json.loads(body)` (`Except.error ()` = the body is not valid
JSON, so `json.loads` raises).  Returns the list of acknowledgment actions
issued, or `Except.error ()` when an exception escapes the callback before
any acknowledgment (parse failure, or `process_webhook_job` raising on a
non-dict payload). -/
def callback (w : World) (parsedBody : Except Unit JValue) :
    Except Unit (List AckAction) :=
  match parsedBody with
  | .error _ => .error ()
  | .ok webhook_data =>
    match process_webhook_job w webhook_data with
    | .error _ => .error ()
    | .ok (true, _) => .ok [.basic_ack]
    | .ok (false, _) => .ok [.basic_nack_norequeue]

/-- A startup-time action against the broker, in order. -/
inductive StartupAction where
  | connectBroker (url : String)
  | declareQueueDurable (name : String)
  | setQosPrefetchCount (n : Nat)
  | startConsuming

/-- Module initialization (worker.py lines 32-37) followed by `main`
(lines 147-170), as a function of the `RABBITMQ_URL` environment variable
(`none` = unset).  An unset or empty variable is falsy, so the module-level
check raises `ValueError` before any broker action; otherwise `main`
connects, declares the durable queue, sets prefetch to 1 and consumes. -/
def workerStartup (rabbitmqUrlEnv : Option String) :
    Except String (List StartupAction) :=
  match rabbitmqUrlEnv with
  | none => .error "No RABBITMQ_URL set for the Worker application"
  | some url =>
    if url = "" then .error "No RABBITMQ_URL set for the Worker application"
    else
      .ok [.connectBroker url, .declareQueueDurable "docusign_jobs",
           .setQosPrefetchCount 1, .startConsuming]

/-! Concrete fixtures used by the witness and counterexample theorems. -/

/-- A happy-path oracle: both clients construct, the custom-fields response
carries `contractNumber = "C-100"`, the query finds exactly one record with
`Id = "0061x"`, the document is the bytes of `"%PDF"`, the create succeeds. -/
def w0 : World where
  docusignClientOk := true
  salesforceClientOk := true
  customFieldsResponse :=
    .ok (.obj [("textCustomFields",
      .arr [.obj [("name", .str "contractNumber"), ("value", .str "C-100")]])])
  queryResponse := fun _ =>
    .ok { totalSize := 1, records := [.obj [("Id", .str "0061x")]] }
  documentResponse := .ok [37, 80, 68, 70]
  attachmentCreateOk := true

/-- Oracle whose custom-fields response has no `contractNumber` field. -/
def w5 : World :=
  { w0 with
    customFieldsResponse := .ok (.obj [("textCustomFields",
      .arr [.obj [("name", .str "otherField"), ("value", .str "x")]])]) }

/-- Oracle whose query matches zero records (`totalSize = 0`). -/
def w6 : World :=
  { w0 with queryResponse := fun _ => .ok { totalSize := 0, records := [] } }

/-- Oracle whose custom-fields response has two `contractNumber` fields, the
first with an empty value, the second with value `"C-100"`. -/
def w10 : World :=
  { w0 with
    customFieldsResponse := .ok (.obj [("textCustomFields",
      .arr [.obj [("name", .str "contractNumber"), ("value", .str "")],
            .obj [("name", .str "contractNumber"), ("value", .str "C-100")]])]) }

/-- The completion-event job payload for envelope `"E1"`. -/
def payload0 : JValue :=
  .obj [("event", .str "envelope-completed"),
        ("data", .obj [("envelopeId", .str "E1")])]

/-! Theorems. -/

/-- On a dict payload `process_webhook_job` never raises: the event access at
line 82 succeeds, and every exception inside the `try` block is caught at
line 142 and turned into `False`. -/
theorem process_obj_total (w : World) (kvs : List (String × JValue)) :
    ∃ b tr, process_webhook_job w (.obj kvs) = .ok (b, tr) := by
  cases h : isStrEq (jlookup kvs "event") "envelope-completed"
  · exact ⟨true, [], by simp [process_webhook_job, dictGet, h]⟩
  · exact ⟨(processCompletedJob w (.obj kvs)).1,
      (processCompletedJob w (.obj kvs)).2,
      by simp [process_webhook_job, dictGet, h]⟩

/-- Claim C1: for a completion-event payload where the custom-fields fetch
yields `contractNumber` with a non-empty string value `c`, the CRM query for
`c` returns exactly one record, and the document fetch and attachment create
succeed, `process_webhook_job` returns `True`, and the attachment payload it
submits has `ParentId` the queried record's `Id`, `Body` the base64 encoding
of the fetched bytes, `Name = "Signed Contract - <c>.pdf"`, and
`ContentType = "application/pdf"`. -/
theorem C1_happy_path_attachment (w : World) (eid cfd : JValue) (c : String)
    (recKvs : List (String × JValue)) (idv : JValue) (bytes : List Nat)
    (hc : c ≠ "")
    (hds : w.docusignClientOk = true)
    (hsf : w.salesforceClientOk = true)
    (hcf : w.customFieldsResponse = .ok cfd)
    (hx : extractContractNumber cfd = .ok (some (.str c)))
    (hq : w.queryResponse (soqlFor (.str c)) =
      .ok { totalSize := 1, records := [.obj recKvs] })
    (hid : jlookup recKvs "Id" = some idv)
    (hd : w.documentResponse = .ok bytes)
    (ha : w.attachmentCreateOk = true) :
    process_webhook_job w
      (.obj [("event", .str "envelope-completed"),
             ("data", .obj [("envelopeId", eid)])])
      = .ok (true,
        [.getDocusignApiClient, .getSalesforceClient, .httpGetCustomFields eid,
         .sfQuery ("SELECT Id FROM Contract WHERE ContractNumber = \x27" ++ c ++ "\x27"),
         .httpGetDocumentCombined eid,
         .attachmentCreate
           { ParentId := idv
             Name := "Signed Contract - " ++ c ++ ".pdf"
             Body := b64encode bytes
             ContentType := "application/pdf" }]) := by
  simp only [soqlFor, pyStr] at hq
  simp [process_webhook_job, processCompletedJob, dictGet, dictIndex, jlookup,
        isStrEq, truthy, soqlFor, attachmentName, pyStr, hds, hsf, hcf, hx,
        hq, hid, hd, ha, hc]

/-- Witness for C1: the happy-path oracle `w0` with payload `payload0`. -/
theorem C1_witness :
    ("C-100" : String) ≠ "" ∧
    process_webhook_job w0
      (.obj [("event", .str "envelope-completed"),
             ("data", .obj [("envelopeId", .str "E1")])])
      = .ok (true,
        [.getDocusignApiClient, .getSalesforceClient,
         .httpGetCustomFields (.str "E1"),
         .sfQuery ("SELECT Id FROM Contract WHERE ContractNumber = \x27" ++ "C-100" ++ "\x27"),
         .httpGetDocumentCombined (.str "E1"),
         .attachmentCreate
           { ParentId := .str "0061x"
             Name := "Signed Contract - " ++ "C-100" ++ ".pdf"
             Body := b64encode [37, 80, 68, 70]
             ContentType := "application/pdf" }]) :=
  ⟨by decide,
   C1_happy_path_attachment w0 (.str "E1")
     (.obj [("textCustomFields",
       .arr [.obj [("name", .str "contractNumber"), ("value", .str "C-100")]])])
     "C-100" [("Id", .str "0061x")] (.str "0061x") [37, 80, 68, 70]
     (by decide) rfl rfl rfl rfl rfl rfl rfl rfl⟩

/-- Counterexample to C2: on a payload that is not a dict (here the JSON
array `[]`), the event access at worker.py line 82 runs before the `try`
block, so the `AttributeError` it raises escapes `process_webhook_job`. -/
theorem C2_counterexample_nondict_raises :
    process_webhook_job w0 (JValue.arr []) = .error () := rfl

/-- Claim C2 (amended): for every dict payload, `process_webhook_job`
returns a boolean and never raises — every error inside the `try` block is
caught at its boundary and converted to `False`.  (On a non-dict payload the
event access at line 82, which is outside the `try`, raises and escapes.) -/
theorem C2_no_raise_on_dict (w : World) (kvs : List (String × JValue)) :
    ∃ b tr, process_webhook_job w (.obj kvs) = .ok (b, tr) :=
  process_obj_total w kvs

/-- Counterexample to C3: a delivered message whose body is the valid JSON
`"[]"` (not an object) makes `process_webhook_job` raise inside the callback
before any acknowledgment, so the callback performs zero acknowledgment
actions — not exactly one. -/
theorem C3_counterexample_nonobject_body_no_ack :
    callback w0 (Except.ok (JValue.arr [])) = .error () := rfl

/-- Claim C3 (amended): for every delivered message whose body parses to a
JSON object, the callback performs exactly one acknowledgment action —
`basic_ack` when the orchestrator returns `True`, `basic_nack` with
`requeue=False` when it returns `False`.  (When the body is not valid JSON
or not an object, the callback raises before acknowledging and performs
zero actions.) -/
theorem C3_exactly_one_ack_on_object_body (w : World)
    (kvs : List (String × JValue)) :
    (∃ tr, process_webhook_job w (.obj kvs) = .ok (true, tr) ∧
      callback w (.ok (.obj kvs)) = .ok [AckAction.basic_ack]) ∨
    (∃ tr, process_webhook_job w (.obj kvs) = .ok (false, tr) ∧
      callback w (.ok (.obj kvs)) = .ok [AckAction.basic_nack_norequeue]) := by
  obtain ⟨b, tr, h⟩ := process_obj_total w kvs
  cases b
  · exact Or.inr ⟨tr, h, by simp [callback, h]⟩
  · exact Or.inl ⟨tr, h, by simp [callback, h]⟩

/-- Claim C4: for every job payload whose `event` field is not
`"envelope-completed"` (including an absent field, where `.get` yields
`None`), `process_webhook_job` returns `True` with an empty trace: no
credential acquisition, no e-signature call, no CRM call, no upload. -/
theorem C4_non_completion_noop (w : World) (kvs : List (String × JValue))
    (hev : isStrEq (jlookup kvs "event") "envelope-completed" = false) :
    process_webhook_job w (.obj kvs) = .ok (true, []) := by
  simp [process_webhook_job, dictGet, hev]

/-- Witness for C4: a payload with `event = "envelope-declined"`. -/
theorem C4_witness :
    isStrEq (jlookup [("event", JValue.str "envelope-declined")] "event")
      "envelope-completed" = false ∧
    process_webhook_job w0 (.obj [("event", .str "envelope-declined")])
      = .ok (true, []) :=
  ⟨by decide, C4_non_completion_noop w0 _ (by decide)⟩

/-- Claim C5: for a completion-event payload, when the custom-fields
response leaves `contract_number` as `None` (no field named exactly
`contractNumber`, or an empty or absent field list), `process_webhook_job`
returns `False` and the trace stops at the custom-fields fetch: no CRM
query, no document download, no attachment create. -/
theorem C5_missing_contract_number (w : World) (eid cfd : JValue)
    (hds : w.docusignClientOk = true)
    (hsf : w.salesforceClientOk = true)
    (hcf : w.customFieldsResponse = .ok cfd)
    (hnone : extractContractNumber cfd = .ok none) :
    process_webhook_job w
      (.obj [("event", .str "envelope-completed"),
             ("data", .obj [("envelopeId", eid)])])
      = .ok (false,
        [.getDocusignApiClient, .getSalesforceClient,
         .httpGetCustomFields eid]) := by
  simp [process_webhook_job, processCompletedJob, dictGet, dictIndex, jlookup,
        isStrEq, hds, hsf, hcf, hnone]

/-- Witness for C5: oracle `w5`, whose only custom field is named
`otherField`. -/
theorem C5_witness :
    w5.docusignClientOk = true ∧
    w5.salesforceClientOk = true ∧
    w5.customFieldsResponse = .ok (.obj [("textCustomFields",
      .arr [.obj [("name", .str "otherField"), ("value", .str "x")]])]) ∧
    extractContractNumber (.obj [("textCustomFields",
      .arr [.obj [("name", .str "otherField"), ("value", .str "x")]])])
      = .ok none ∧
    process_webhook_job w5
      (.obj [("event", .str "envelope-completed"),
             ("data", .obj [("envelopeId", .str "E1")])])
      = .ok (false,
        [.getDocusignApiClient, .getSalesforceClient,
         .httpGetCustomFields (.str "E1")]) :=
  ⟨rfl, rfl, rfl, rfl, C5_missing_contract_number w5 (.str "E1") _ rfl rfl rfl rfl⟩

/-- Claim C6: for a completion-event payload with a truthy extracted
contract number, when the CRM query succeeds but its `totalSize` field is
not exactly 1, `process_webhook_job` returns `False` and the trace stops at
the query: no document download, no attachment create.  Only `totalSize` is
constrained — the `records` list is arbitrary, so the decision is made on
`totalSize` alone. -/
theorem C6_nonsingleton_query (w : World) (eid cfd cn : JValue)
    (qr : SfQueryResult)
    (hds : w.docusignClientOk = true)
    (hsf : w.salesforceClientOk = true)
    (hcf : w.customFieldsResponse = .ok cfd)
    (hx : extractContractNumber cfd = .ok (some cn))
    (ht : truthy cn = true)
    (hq : w.queryResponse (soqlFor cn) = .ok qr)
    (hn : qr.totalSize ≠ 1) :
    process_webhook_job w
      (.obj [("event", .str "envelope-completed"),
             ("data", .obj [("envelopeId", eid)])])
      = .ok (false,
        [.getDocusignApiClient, .getSalesforceClient,
         .httpGetCustomFields eid, .sfQuery (soqlFor cn)]) := by
  simp [process_webhook_job, processCompletedJob, dictGet, dictIndex, jlookup,
        isStrEq, hds, hsf, hcf, hx, ht, hq, hn]

/-- Witness for C6: oracle `w6`, whose query reports `totalSize = 0`. -/
theorem C6_witness :
    w6.docusignClientOk = true ∧
    w6.salesforceClientOk = true ∧
    w6.customFieldsResponse = .ok (.obj [("textCustomFields",
      .arr [.obj [("name", .str "contractNumber"), ("value", .str "C-100")]])]) ∧
    extractContractNumber (.obj [("textCustomFields",
      .arr [.obj [("name", .str "contractNumber"), ("value", .str "C-100")]])])
      = .ok (some (.str "C-100")) ∧
    truthy (.str "C-100") = true ∧
    w6.queryResponse (soqlFor (.str "C-100"))
      = .ok { totalSize := 0, records := [] } ∧
    (0 : Int) ≠ 1 ∧
    process_webhook_job w6
      (.obj [("event", .str "envelope-completed"),
             ("data", .obj [("envelopeId", .str "E1")])])
      = .ok (false,
        [.getDocusignApiClient, .getSalesforceClient,
         .httpGetCustomFields (.str "E1"), .sfQuery (soqlFor (.str "C-100"))]) :=
  ⟨rfl, rfl, rfl, rfl, by decide, rfl, by decide,
   C6_nonsingleton_query w6 (.str "E1") _ (.str "C-100")
     { totalSize := 0, records := [] } rfl rfl rfl rfl (by decide) rfl (by decide)⟩

/-- Claim C7: for a dict payload whose `event` is `"envelope-completed"`
but where `webhook_data["data"]["envelopeId"]` raises (no `data` key, a
non-dict `data`, or no `envelopeId` key), the exception is caught and
`process_webhook_job` returns `False`, with no external operation
performed. -/
theorem C7_missing_envelope_id (w : World) (kvs : List (String × JValue))
    (hev : isStrEq (jlookup kvs "event") "envelope-completed" = true)
    (henv : dictIndex (JValue.obj kvs) "data" = .error () ∨
      ∃ d, dictIndex (JValue.obj kvs) "data" = .ok d ∧
        dictIndex d "envelopeId" = .error ()) :
    process_webhook_job w (.obj kvs) = .ok (false, []) := by
  rcases henv with h | ⟨d, hd1, hd2⟩
  · simp [process_webhook_job, processCompletedJob, dictGet, hev, h]
  · simp [process_webhook_job, processCompletedJob, dictGet, hev, hd1, hd2]

/-- Witness for C7: a completion-event payload with no `data` key. -/
theorem C7_witness :
    isStrEq (jlookup [("event", JValue.str "envelope-completed")] "event")
      "envelope-completed" = true ∧
    dictIndex (JValue.obj [("event", JValue.str "envelope-completed")]) "data"
      = .error () ∧
    process_webhook_job w0 (.obj [("event", .str "envelope-completed")])
      = .ok (false, []) :=
  ⟨by decide, rfl,
   C7_missing_envelope_id w0 [("event", .str "envelope-completed")]
     (by decide) (Or.inl rfl)⟩

/-- Claim C8: when the `RABBITMQ_URL` environment variable is absent,
module initialization raises `ValueError` before `main` runs, so startup is
a fatal error and no broker action (connect, queue declare, consume) is
ever produced. -/
theorem C8_missing_rabbitmq_url_fatal :
    workerStartup none
      = .error "No RABBITMQ_URL set for the Worker application" := rfl

/-- Claim C9: the SOQL query built for an extracted contract-number string
`c` is exactly the verbatim interpolation
`"SELECT Id FROM Contract WHERE ContractNumber = \x27" ++ c ++ "\x27"` —
no escaping or quoting of `c` is applied. -/
theorem C9_soql_verbatim_interpolation (c : String) :
    soqlFor (.str c)
      = "SELECT Id FROM Contract WHERE ContractNumber = \x27" ++ c ++ "\x27" := by
  simp [soqlFor, pyStr]

/-- Claim C10: when the first field named `contractNumber` in the
`textCustomFields` list carries a falsy value (the empty string, `null`,
or no `value` key at all), the scan still stops at that first field — the
rest of the list, which may contain further `contractNumber` fields, is
never consulted — and `process_webhook_job` returns `False` exactly as for
an absent field, with no CRM query, download, or upload. -/
theorem C10_falsy_first_contract_number (w : World) (eid : JValue)
    (fkvs : List (String × JValue)) (rest : List JValue)
    (hname : jlookup fkvs "name" = some (.str "contractNumber"))
    (hval : optTruthy (jlookup fkvs "value") = false)
    (hds : w.docusignClientOk = true)
    (hsf : w.salesforceClientOk = true)
    (hcf : w.customFieldsResponse = .ok (.obj [("textCustomFields",
      .arr (.obj fkvs :: rest))])) :
    findContractNumber (JValue.obj fkvs :: rest)
      = .ok (some (jlookup fkvs "value")) ∧
    process_webhook_job w
      (.obj [("event", .str "envelope-completed"),
             ("data", .obj [("envelopeId", eid)])])
      = .ok (false,
        [.getDocusignApiClient, .getSalesforceClient,
         .httpGetCustomFields eid]) := by
  have hfind : findContractNumber (JValue.obj fkvs :: rest)
      = .ok (some (jlookup fkvs "value")) := by
    simp [findContractNumber, dictGet, hname, isStrEq]
  refine ⟨hfind, ?_⟩
  have hex : extractContractNumber (.obj [("textCustomFields",
      .arr (.obj fkvs :: rest))]) = .ok (jlookup fkvs "value") := by
    cases hv : jlookup fkvs "value" <;>
      simp [extractContractNumber, dictGet, jlookup, optTruthy, truthy,
        hfind, hv]
  cases hv : jlookup fkvs "value" with
  | none =>
    rw [hv] at hex
    simp [process_webhook_job, processCompletedJob, dictGet, dictIndex,
      jlookup, isStrEq, hds, hsf, hcf, hex]
  | some cn =>
    rw [hv] at hex
    rw [hv] at hval
    simp only [optTruthy] at hval
    simp [process_webhook_job, processCompletedJob, dictGet, dictIndex,
      jlookup, isStrEq, hds, hsf, hcf, hex, hval]

/-- Witness for C10: oracle `w10`, whose custom-fields list has two
`contractNumber` fields, the first with the empty string as value. -/
theorem C10_witness :
    jlookup [("name", JValue.str "contractNumber"), ("value", JValue.str "")]
      "name" = some (.str "contractNumber") ∧
    optTruthy (jlookup
      [("name", JValue.str "contractNumber"), ("value", JValue.str "")]
      "value") = false ∧
    w10.docusignClientOk = true ∧
    w10.salesforceClientOk = true ∧
    w10.customFieldsResponse = .ok (.obj [("textCustomFields",
      .arr [.obj [("name", .str "contractNumber"), ("value", .str "")],
            .obj [("name", .str "contractNumber"), ("value", .str "C-100")]])]) ∧
    findContractNumber
      [.obj [("name", .str "contractNumber"), ("value", .str "")],
       .obj [("name", .str "contractNumber"), ("value", .str "C-100")]]
      = .ok (some (some (.str ""))) ∧
    process_webhook_job w10
      (.obj [("event", .str "envelope-completed"),
             ("data", .obj [("envelopeId", .str "E1")])])
      = .ok (false,
        [.getDocusignApiClient, .getSalesforceClient,
         .httpGetCustomFields (.str "E1")]) := by
  have h := C10_falsy_first_contract_number w10 (.str "E1")
    [("name", .str "contractNumber"), ("value", .str "")]
    [.obj [("name", .str "contractNumber"), ("value", .str "C-100")]]
    rfl rfl rfl rfl rfl
  exact ⟨rfl, rfl, rfl, rfl, rfl, h.1, h.2⟩

end Worker
